import Mathlib

/-!
Verification of the finreels backend (Express + AWS server variants).

Shallow embedding of the three core operations of `src/server.js` and
`src/serverX.js`:

* the feed reader (`GET /reels-latest`),
* the publish pipeline (`POST /feature-reel`, two variants that differ in
  the response URL and stored job id),
* the like mutator (`POST /like-reel`).

External collaborators (S3, MediaConvert, DynamoDB) are modelled as
oracles: each remote call's outcome is an explicit `Except` value supplied
to the handler, and the handler records which calls it made.  The DynamoDB
table is a list of items; an attribute that may be absent on an item is an
`Option`.
-/

namespace Finreels

/-- One DynamoDB item of the `finreels` table.  `likes`, `likedBy`,
`caption` and `jobId` are attributes that a stored item may lack, hence
`Option`.  The table key is the pair `(stock_identifier, reel_id)`. -/
structure DynamoItem where
  stock_identifier : String
  reel_id : String
  s3_key : String
  caption : Option String
  likes : Option Nat
  likedBy : Option (List String)
  timestamp : Nat
  jobId : Option String
  deriving Repr, DecidableEq

/-- JavaScript template-literal interpolation of a possibly-undefined
string variable: an undefined variable renders as the text "undefined". -/
def jsTemplateStr : Option String → String
  | none => "undefined"
  | some s => s

/-- JavaScript truthiness test `!x` on a possibly-undefined string:
undefined and the empty string are falsy. -/
def jsFalsyStr : Option String → Bool
  | none => true
  | some s => s.isEmpty

/-- Key match used by `dynamoDB.get` / `dynamoDB.update` with
`Key: (stock_identifier, reel_id)`. -/
def keyMatch (sid rid : String) (i : DynamoItem) : Bool :=
  i.stock_identifier == sid && i.reel_id == rid

/-- `dynamoDB.get` by composite key on the table. -/
def getItem (store : List DynamoItem) (sid rid : String) : Option DynamoItem :=
  store.find? (keyMatch sid rid)

/-- The `UpdateExpression: set likes = :likes, likedBy = :likedBy`
applied to the item with the given key. -/
def updateStore (store : List DynamoItem) (sid rid : String)
    (newLikes : Nat) (newLikedBy : List String) : List DynamoItem :=
  store.map fun i =>
    if keyMatch sid rid i then
      { i with likes := some newLikes, likedBy := some newLikedBy }
    else i

/-- `dynamoDB.put`: stores the item, replacing any item with the same key. -/
def putItem (store : List DynamoItem) (item : DynamoItem) : List DynamoItem :=
  store.filter (fun i => !(keyMatch item.stock_identifier item.reel_id i)) ++ [item]

/-- The summary object built for each item by the `GET /reels-latest`
handler's `.map` callback. -/
structure ReelSummary where
  reel_id : String
  media_url : String
  stock_identifier : String
  caption : Option String
  likes : Nat
  likedBy : List String
  deriving Repr, DecidableEq

/-- Projection of one item to its summary, as in the handler:
`media_url` is always the CloudFront base joined to `s3_key`, and
`item.likes || 0` / `item.likedBy || []` default absent attributes. -/
def summarize (base : String) (i : DynamoItem) : ReelSummary :=
  { reel_id := i.reel_id
    media_url := base ++ "/" ++ i.s3_key
    stock_identifier := i.stock_identifier
    caption := i.caption
    likes := i.likes.getD 0
    likedBy := i.likedBy.getD [] }

/-- Order used by `.sort((a, b) => b.timestamp - a.timestamp)`:
`a` comes before `b` exactly when `a.timestamp ≥ b.timestamp`. -/
def tsDesc (a b : DynamoItem) : Prop := b.timestamp ≤ a.timestamp

instance : DecidableRel tsDesc := fun a b => Nat.decLe b.timestamp a.timestamp

instance : IsTotal DynamoItem tsDesc := ⟨fun a b => Nat.le_total b.timestamp a.timestamp⟩

instance : IsTrans DynamoItem tsDesc :=
  ⟨fun _ _ _ h1 h2 => Nat.le_trans h2 h1⟩

/-- The `.sort` call of the handler: a stable sort of the scanned items by
timestamp descending. -/
def sortByTsDesc (l : List DynamoItem) : List DynamoItem :=
  List.insertionSort tsDesc l

/-- The `GET /reels-latest` handler on a successful scan: sort all items
by timestamp descending, then map each to its summary.  The handler reads
nothing from the request, in particular no limit parameter. -/
def reelsLatest (base : String) (store : List DynamoItem) : List ReelSummary :=
  (sortByTsDesc store).map (summarize base)

/-- The `GET /reels-latest` handler as invoked with a request that may
carry a `limit` query parameter: the handler never reads the query string,
so the parameter is ignored. -/
def reelsLatestWithLimit (base : String) (lim : Option Nat)
    (store : List DynamoItem) : List ReelSummary :=
  reelsLatest base store

/-- Result of one `POST /like-reel` request: HTTP status, the `error`
string if any, the two attributes returned via `ReturnValues:
UPDATED_NEW`, the table state afterwards, and how many `update` calls the
handler issued. -/
structure LikeOutcome where
  status : Nat
  error : Option String
  likes : Option Nat
  likedBy : Option (List String)
  store : List DynamoItem
  updateCalls : Nat
  deriving Repr, DecidableEq

/-- The new `likes` value: `reel.likes ? reel.likes + 1 : 1`; a missing
attribute and the number 0 are both falsy, yielding 1. -/
def likeNewLikes : Option Nat → Nat
  | none => 1
  | some 0 => 1
  | some (n + 1) => n + 2

/-- The new `likedBy` value:
`reel.likedBy ? [...reel.likedBy, client_id] : [client_id]`; an array is
always truthy (even when empty), a missing attribute is falsy. -/
def likeNewLikedBy (c : String) : Option (List String) → List String
  | none => [c]
  | some l => l ++ [c]

/-- The `POST /like-reel` handler.  Validates the three body fields by JS
truthiness, fetches the item by composite key, 404s when absent, otherwise
computes the incremented counter and appended list and issues one update. -/
def likeReel (store : List DynamoItem) (sid rid cid : Option String) : LikeOutcome :=
  if jsFalsyStr sid || jsFalsyStr rid || jsFalsyStr cid then
    { status := 400
      error := some "Stock Identifier, Reel ID, and Client ID are required"
      likes := none, likedBy := none, store := store, updateCalls := 0 }
  else
    let s := sid.getD ""
    let r := rid.getD ""
    let c := cid.getD ""
    match getItem store s r with
    | none =>
        { status := 404, error := some "Reel not found"
          likes := none, likedBy := none, store := store, updateCalls := 0 }
    | some reel =>
        let newLikes := likeNewLikes reel.likes
        let newLikedBy := likeNewLikedBy c reel.likedBy
        { status := 200, error := none
          likes := some newLikes, likedBy := some newLikedBy
          store := updateStore store s r newLikes newLikedBy
          updateCalls := 1 }

/-- A multipart file as produced by multer: raw bytes plus declared MIME
type. -/
structure FileUpload where
  buffer : List Nat
  mimetype : String
  deriving Repr, DecidableEq

/-- Per-request nondeterminism of the publish pipeline: the generated
UUID, the `Date.now()` value, and the outcome of each of the three remote
calls (S3 upload, MediaConvert job creation returning a job id, DynamoDB
put).  An `Except.error` value carries the thrown error's message. -/
structure PublishEnv where
  reel_id : String
  now : Nat
  uploadResult : Except String Unit
  jobResult : Except String String
  putResult : Except String Unit
  deriving Repr

/-- Result of one `POST /feature-reel` request: HTTP status, response
fields, the table state afterwards, and the collaborator calls the handler
issued (`s3PutCalls` records each S3 upload's key and content type). -/
structure PublishOutcome where
  status : Nat
  error : Option String
  message : Option String
  media_url : Option String
  mediaConvertJobId : Option String
  store : List DynamoItem
  s3PutCalls : List (String × String)
  jobSubmitCalls : Nat
  dbPutCalls : Nat
  deriving Repr, DecidableEq

/-- The `POST /feature-reel` handler of the first variant in
`src/server.js`: validates only that a file is present, uploads the raw
bytes under `reels/{stock_identifier}_{reel_id}.mp4`, creates a
MediaConvert job, writes the metadata item (without job id), and responds
with the direct CloudFront URL of the upload plus `mediaConvertJobId`.
Each remote call aborts to the catch-all 500 branch when its oracle says
it throws; calls after the failing one are never made.  (A put whose
`stock_identifier` is undefined is rejected by DynamoDB itself; the oracle
models that as `putResult = .error`.) -/
def featureReel (base : String) (caption stock_identifier : Option String)
    (file : Option FileUpload) (env : PublishEnv)
    (store : List DynamoItem) : PublishOutcome :=
  match file with
  | none =>
      { status := 400, error := some "Video file is required"
        message := none, media_url := none, mediaConvertJobId := none
        store := store, s3PutCalls := [], jobSubmitCalls := 0, dbPutCalls := 0 }
  | some f =>
    let fileName := "reels/" ++ jsTemplateStr stock_identifier ++ "_" ++ env.reel_id ++ ".mp4"
    let s3Calls := [(fileName, f.mimetype)]
    match env.uploadResult with
    | .error e =>
        { status := 500, error := some ("Failed to feature reel: " ++ e)
          message := none, media_url := none, mediaConvertJobId := none
          store := store, s3PutCalls := s3Calls, jobSubmitCalls := 0, dbPutCalls := 0 }
    | .ok _ =>
      match env.jobResult with
      | .error e =>
          { status := 500, error := some ("Failed to feature reel: " ++ e)
            message := none, media_url := none, mediaConvertJobId := none
            store := store, s3PutCalls := s3Calls, jobSubmitCalls := 1, dbPutCalls := 0 }
      | .ok jid =>
        let item : DynamoItem :=
          { stock_identifier := jsTemplateStr stock_identifier
            reel_id := env.reel_id
            s3_key := fileName
            caption := caption
            likes := some 0
            likedBy := some []
            timestamp := env.now
            jobId := none }
        match env.putResult with
        | .error e =>
            { status := 500, error := some ("Failed to feature reel: " ++ e)
              message := none, media_url := none, mediaConvertJobId := none
              store := store, s3PutCalls := s3Calls, jobSubmitCalls := 1, dbPutCalls := 1 }
        | .ok _ =>
            { status := 200, error := none
              message := some "Reel featured successfully"
              media_url := some (base ++ "/" ++ fileName)
              mediaConvertJobId := some jid
              store := putItem store item
              s3PutCalls := s3Calls, jobSubmitCalls := 1, dbPutCalls := 1 }

/-- The `POST /feature-reel` handler of `src/serverX.js` and of the second
variant in `src/server.js`: identical control flow, but the stored item
carries `jobId` and the response URL is the expected HLS manifest
`{base}/reels/{stock_identifier}_{reel_id}/index.m3u8` with no job id
field in the response. -/
def featureReelX (base : String) (caption stock_identifier : Option String)
    (file : Option FileUpload) (env : PublishEnv)
    (store : List DynamoItem) : PublishOutcome :=
  match file with
  | none =>
      { status := 400, error := some "Video file is required"
        message := none, media_url := none, mediaConvertJobId := none
        store := store, s3PutCalls := [], jobSubmitCalls := 0, dbPutCalls := 0 }
  | some f =>
    let sid := jsTemplateStr stock_identifier
    let fileName := "reels/" ++ sid ++ "_" ++ env.reel_id ++ ".mp4"
    let s3Calls := [(fileName, f.mimetype)]
    match env.uploadResult with
    | .error e =>
        { status := 500, error := some ("Failed to feature reel: " ++ e)
          message := none, media_url := none, mediaConvertJobId := none
          store := store, s3PutCalls := s3Calls, jobSubmitCalls := 0, dbPutCalls := 0 }
    | .ok _ =>
      match env.jobResult with
      | .error e =>
          { status := 500, error := some ("Failed to feature reel: " ++ e)
            message := none, media_url := none, mediaConvertJobId := none
            store := store, s3PutCalls := s3Calls, jobSubmitCalls := 1, dbPutCalls := 0 }
      | .ok jid =>
        let item : DynamoItem :=
          { stock_identifier := sid
            reel_id := env.reel_id
            s3_key := fileName
            caption := caption
            likes := some 0
            likedBy := some []
            timestamp := env.now
            jobId := some jid }
        match env.putResult with
        | .error e =>
            { status := 500, error := some ("Failed to feature reel: " ++ e)
              message := none, media_url := none, mediaConvertJobId := none
              store := store, s3PutCalls := s3Calls, jobSubmitCalls := 1, dbPutCalls := 1 }
        | .ok _ =>
            { status := 200, error := none
              message := some "Reel featured successfully"
              media_url := some (base ++ "/reels/" ++ sid ++ "_" ++ env.reel_id ++ "/index.m3u8")
              mediaConvertJobId := none
              store := putItem store item
              s3PutCalls := s3Calls, jobSubmitCalls := 1, dbPutCalls := 1 }

/-!
Interleaving model for concurrent likes.  The handler's body is a
`dynamoDB.get` followed by a `dynamoDB.update`; under concurrency each
in-flight request is at one of three points: before its read, between
read and write (holding the item it observed), or finished.  A schedule
is the order in which the requests' remote calls reach the store.
-/

/-- Progress of one in-flight like request. -/
inductive LikePhase where
  | toRead : LikePhase
  | toWrite : Option DynamoItem → LikePhase
  | finished : LikePhase
  deriving Repr, DecidableEq

/-- Shared table plus the per-request phases; each request carries its
`client_id`. -/
structure ConcLikeState where
  store : List DynamoItem
  ops : List (String × LikePhase)
  deriving Repr, DecidableEq

/-- Advance request `i` by one remote call, exactly as the handler does:
the read observes the current item; the write stores the counter and list
computed from what that request observed (or does nothing when the read
found no item, the 404 path). -/
def likeStep (sid rid : String) (st : ConcLikeState) (i : Nat) : ConcLikeState :=
  match st.ops[i]? with
  | none => st
  | some (c, .toRead) =>
      { st with ops := st.ops.set i (c, .toWrite (getItem st.store sid rid)) }
  | some (c, .toWrite none) =>
      { st with ops := st.ops.set i (c, .finished) }
  | some (c, .toWrite (some reel)) =>
      { store := updateStore st.store sid rid
          (likeNewLikes reel.likes) (likeNewLikedBy c reel.likedBy)
        ops := st.ops.set i (c, .finished) }
  | some (_, .finished) => st

/-- Run a schedule: the listed requests take their next remote-call step
in order. -/
def runLikeSchedule (sid rid : String) (st : ConcLikeState)
    (sched : List Nat) : ConcLikeState :=
  sched.foldl (likeStep sid rid) st

/-! Concrete values used by witnesses and counterexamples. -/

/-- A small uploaded file. -/
def fileA : FileUpload := { buffer := [0, 1], mimetype := "video/mp4" }

/-- Oracle: every remote call succeeds. -/
def envAllOk : PublishEnv :=
  { reel_id := "r1", now := 7
    uploadResult := .ok (), jobResult := .ok "job-1", putResult := .ok () }

/-- Oracle: upload succeeds, MediaConvert rejects the job. -/
def envJobFail : PublishEnv :=
  { reel_id := "r1", now := 7
    uploadResult := .ok (), jobResult := .error "boom", putResult := .ok () }

/-- Oracle: upload and job succeed, the DynamoDB put is rejected (as it
is for an item missing its partition key). -/
def envPutFail : PublishEnv :=
  { reel_id := "r1", now := 7
    uploadResult := .ok (), jobResult := .ok "job-1"
    putResult := .error "ValidationException" }

/-- A stored reel with 5 likes from client "z". -/
def reelR1 : DynamoItem :=
  { stock_identifier := "ACME", reel_id := "r1", s3_key := "reels/ACME_r1.mp4"
    caption := none, likes := some 5, likedBy := some ["z"]
    timestamp := 1, jobId := none }

/-- A stored reel lacking the `likes` and `likedBy` attributes. -/
def reelBare : DynamoItem :=
  { stock_identifier := "ACME", reel_id := "r2", s3_key := "reels/ACME_r2.mp4"
    caption := none, likes := none, likedBy := none
    timestamp := 2, jobId := none }

/-- A reel with a given id and timestamp, for ordering examples. -/
def tsItem (rid : String) (ts : Nat) : DynamoItem :=
  { stock_identifier := "ACME", reel_id := rid
    s3_key := "reels/ACME_" ++ rid ++ ".mp4"
    caption := none, likes := some 0, likedBy := some []
    timestamp := ts, jobId := none }

/-- Final state of the interleaving read-a, read-b, write-a, write-b of
two like requests by clients "alice" and "bob" on `reelR1`. -/
def lostUpdateFinal : ConcLikeState :=
  runLikeSchedule "ACME" "r1"
    { store := [reelR1], ops := [("alice", .toRead), ("bob", .toRead)] }
    [0, 1, 0, 1]

/-! Helper lemmas. -/

/-- On a present `likes` attribute the handler's truthiness expression is
an increment: both `some 0` (falsy, branch yields 1) and `some (n+1)`
compute the old value plus one. -/
theorem likeNewLikes_some (L : Nat) : likeNewLikes (some L) = L + 1 := by
  cases L <;> rfl

/-- The like update rewrites only `likes` and `likedBy`, so key matching
is unaffected. -/
theorem keyMatch_likeUpdate (sid rid : String) (nl : Nat) (nb : List String)
    (i : DynamoItem) :
    keyMatch sid rid
      (if keyMatch sid rid i then { i with likes := some nl, likedBy := some nb } else i)
      = keyMatch sid rid i := by
  cases h : keyMatch sid rid i
  · simp [h]
  · rw [if_pos rfl]
    exact h

/-- Reading back the updated key after `updateStore` yields the old item
with the two attributes replaced. -/
theorem getItem_updateStore_self (store : List DynamoItem) (sid rid : String)
    (reel : DynamoItem) (nl : Nat) (nb : List String)
    (hfind : getItem store sid rid = some reel) :
    getItem (updateStore store sid rid nl nb) sid rid
      = some { reel with likes := some nl, likedBy := some nb } := by
  unfold getItem updateStore
  rw [List.find?_map]
  have hcong :
      (keyMatch sid rid ∘ fun i =>
        if keyMatch sid rid i then { i with likes := some nl, likedBy := some nb } else i)
      = keyMatch sid rid := by
    funext i
    exact keyMatch_likeUpdate sid rid nl nb i
  rw [hcong]
  unfold getItem at hfind
  rw [hfind]
  have hkey : keyMatch sid rid reel = true := List.find?_some hfind
  simp [hkey]

/-- C4: liking an existing reel whose record has likes = L and liked_by =
B stores and returns likes = L + 1 and liked_by = B with the client id
appended at the end, with no deduplication (a client id already in B is
appended again). -/
theorem like_increments_and_appends
    (store : List DynamoItem) (sid rid cid : String) (reel : DynamoItem)
    (L : Nat) (B : List String)
    (hs : sid.isEmpty = false) (hr : rid.isEmpty = false) (hc : cid.isEmpty = false)
    (hfind : getItem store sid rid = some reel)
    (hL : reel.likes = some L) (hB : reel.likedBy = some B) :
    (likeReel store (some sid) (some rid) (some cid)).status = 200 ∧
    (likeReel store (some sid) (some rid) (some cid)).likes = some (L + 1) ∧
    (likeReel store (some sid) (some rid) (some cid)).likedBy = some (B ++ [cid]) ∧
    getItem (likeReel store (some sid) (some rid) (some cid)).store sid rid
      = some { reel with likes := some (L + 1), likedBy := some (B ++ [cid]) } := by
  simp only [likeReel, jsFalsyStr, hs, hr, hc, Bool.or_self, Bool.false_or,
    Bool.or_false, if_neg, Option.getD_some, hfind]
  simp only [Bool.false_eq_true, if_false, hL, hB, likeNewLikes_some, likeNewLikedBy]
  exact ⟨trivial, trivial, trivial,
    getItem_updateStore_self store sid rid reel (L + 1) (B ++ [cid]) hfind⟩

/-- Closed instance of C4: liking `reelR1` (5 likes, liked by "z") by
client "z" again yields 6 likes and liked_by ["z", "z"]. -/
theorem like_increments_and_appends_witness :
    (likeReel [reelR1] (some "ACME") (some "r1") (some "z")).status = 200 ∧
    (likeReel [reelR1] (some "ACME") (some "r1") (some "z")).likes = some (5 + 1) ∧
    (likeReel [reelR1] (some "ACME") (some "r1") (some "z")).likedBy
      = some (["z"] ++ ["z"]) ∧
    getItem (likeReel [reelR1] (some "ACME") (some "r1") (some "z")).store "ACME" "r1"
      = some { reelR1 with likes := some (5 + 1), likedBy := some (["z"] ++ ["z"]) } :=
  like_increments_and_appends [reelR1] "ACME" "r1" "z" reelR1 5 ["z"]
    rfl rfl rfl (by decide) rfl rfl

/-- C5: liking a reel whose key matches no stored item returns 404 with
the "Reel not found" error, leaves the table unchanged and issues no
update call. -/
theorem like_missing_reel_404
    (store : List DynamoItem) (sid rid cid : String)
    (hs : sid.isEmpty = false) (hr : rid.isEmpty = false) (hc : cid.isEmpty = false)
    (hfind : getItem store sid rid = none) :
    (likeReel store (some sid) (some rid) (some cid)).status = 404 ∧
    (likeReel store (some sid) (some rid) (some cid)).error = some "Reel not found" ∧
    (likeReel store (some sid) (some rid) (some cid)).store = store ∧
    (likeReel store (some sid) (some rid) (some cid)).updateCalls = 0 := by
  simp [likeReel, jsFalsyStr, hs, hr, hc, hfind]

/-- Closed instance of C5: liking the absent reel "nope" of an empty
table 404s without a write. -/
theorem like_missing_reel_404_witness :
    (likeReel [] (some "ACME") (some "nope") (some "z")).status = 404 ∧
    (likeReel [] (some "ACME") (some "nope") (some "z")).error = some "Reel not found" ∧
    (likeReel [] (some "ACME") (some "nope") (some "z")).store = [] ∧
    (likeReel [] (some "ACME") (some "nope") (some "z")).updateCalls = 0 :=
  like_missing_reel_404 [] "ACME" "nope" "z" rfl rfl rfl rfl

/-- C10: a stored record lacking the likes or likedBy attribute is
reported by the feed as likes = 0 and likedBy = [], and liking it
produces likes = 1 and likedBy = [client_id] rather than failing. -/
theorem missing_counters_default
    (base : String) (store : List DynamoItem) (sid rid cid : String)
    (reel : DynamoItem)
    (hs : sid.isEmpty = false) (hr : rid.isEmpty = false) (hc : cid.isEmpty = false)
    (hfind : getItem store sid rid = some reel)
    (hL : reel.likes = none) (hB : reel.likedBy = none) :
    (summarize base reel).likes = 0 ∧
    (summarize base reel).likedBy = [] ∧
    (likeReel store (some sid) (some rid) (some cid)).status = 200 ∧
    (likeReel store (some sid) (some rid) (some cid)).likes = some 1 ∧
    (likeReel store (some sid) (some rid) (some cid)).likedBy = some [cid] := by
  simp [summarize, likeReel, jsFalsyStr, hs, hr, hc, hfind, hL, hB,
    likeNewLikes, likeNewLikedBy]

/-- Closed instance of C10: the attribute-less `reelBare` summarizes to 0
likes and an empty likedBy, and a like by "z" yields 1 and ["z"]. -/
theorem missing_counters_default_witness :
    (summarize "https://cdn" reelBare).likes = 0 ∧
    (summarize "https://cdn" reelBare).likedBy = [] ∧
    (likeReel [reelBare] (some "ACME") (some "r2") (some "z")).status = 200 ∧
    (likeReel [reelBare] (some "ACME") (some "r2") (some "z")).likes = some 1 ∧
    (likeReel [reelBare] (some "ACME") (some "r2") (some "z")).likedBy = some ["z"] :=
  missing_counters_default "https://cdn" [reelBare] "ACME" "r2" "z" reelBare
    rfl rfl rfl (by decide) rfl rfl

/-- C1: in both transcode-enabled publish variants, when the upload
succeeds but the MediaConvert job submission throws, the handler answers
500 and the metadata record is never written: the table is unchanged and
no put call is issued. -/
theorem transcode_failure_writes_no_record
    (base : String) (caption sid : Option String) (f : FileUpload)
    (env : PublishEnv) (store : List DynamoItem) (e : String)
    (hu : env.uploadResult = .ok ()) (hj : env.jobResult = .error e) :
    (featureReel base caption sid (some f) env store).status = 500 ∧
    (featureReel base caption sid (some f) env store).store = store ∧
    (featureReel base caption sid (some f) env store).dbPutCalls = 0 ∧
    (featureReelX base caption sid (some f) env store).status = 500 ∧
    (featureReelX base caption sid (some f) env store).store = store ∧
    (featureReelX base caption sid (some f) env store).dbPutCalls = 0 := by
  simp [featureReel, featureReelX, hu, hj]

/-- Closed instance of C1: with the job-rejecting oracle the table stays
empty and no put is issued. -/
theorem transcode_failure_writes_no_record_witness :
    (featureReel "https://cdn" none (some "ACME") (some fileA) envJobFail []).status = 500 ∧
    (featureReel "https://cdn" none (some "ACME") (some fileA) envJobFail []).store = [] ∧
    (featureReel "https://cdn" none (some "ACME") (some fileA) envJobFail []).dbPutCalls = 0 ∧
    (featureReelX "https://cdn" none (some "ACME") (some fileA) envJobFail []).status = 500 ∧
    (featureReelX "https://cdn" none (some "ACME") (some fileA) envJobFail []).store = [] ∧
    (featureReelX "https://cdn" none (some "ACME") (some fileA) envJobFail []).dbPutCalls = 0 :=
  transcode_failure_writes_no_record "https://cdn" none (some "ACME") fileA
    envJobFail [] "boom" rfl rfl

/-- C2 fails on the m3u8-responding variant: a successful publish returns
the expected HLS manifest URL, but reading the very record it wrote back
through the feed reader reconstructs the direct URL of the raw upload,
which is a different string. -/
theorem roundtrip_media_url_mismatch :
    (featureReelX "https://cdn" none (some "ACME") (some fileA) envAllOk []).status = 200 ∧
    (featureReelX "https://cdn" none (some "ACME") (some fileA) envAllOk []).media_url
      = some "https://cdn/reels/ACME_r1/index.m3u8" ∧
    (reelsLatest "https://cdn"
        (featureReelX "https://cdn" none (some "ACME") (some fileA) envAllOk []).store).map
        ReelSummary.media_url
      = ["https://cdn/reels/ACME_r1.mp4"] ∧
    ("https://cdn/reels/ACME_r1/index.m3u8" : String) ≠ "https://cdn/reels/ACME_r1.mp4" :=
  ⟨rfl, rfl, rfl, by decide⟩

/-- Amended C6: publishing without a file fails with 400 and the error
string "Video file is required" (capital V, as the source writes it), and
no upload, job-submission or put call is made in either variant. -/
theorem no_file_400_no_work
    (base : String) (caption sid : Option String)
    (env : PublishEnv) (store : List DynamoItem) :
    (featureReel base caption sid none env store).status = 400 ∧
    (featureReel base caption sid none env store).error = some "Video file is required" ∧
    (featureReel base caption sid none env store).s3PutCalls = [] ∧
    (featureReel base caption sid none env store).jobSubmitCalls = 0 ∧
    (featureReel base caption sid none env store).dbPutCalls = 0 ∧
    (featureReel base caption sid none env store).store = store ∧
    (featureReelX base caption sid none env store).status = 400 ∧
    (featureReelX base caption sid none env store).error = some "Video file is required" ∧
    (featureReelX base caption sid none env store).s3PutCalls = [] ∧
    (featureReelX base caption sid none env store).jobSubmitCalls = 0 ∧
    (featureReelX base caption sid none env store).dbPutCalls = 0 ∧
    (featureReelX base caption sid none env store).store = store := by
  simp [featureReel, featureReelX]

/-- C6 as stated is off by one letter: at a concrete file-less request
the error string the handler produces is "Video file is required", not
the claimed "video file is required". -/
theorem no_file_message_capitalized :
    (featureReel "https://cdn" none (some "ACME") none envAllOk []).error
      = some "Video file is required" ∧
    (featureReel "https://cdn" none (some "ACME") none envAllOk []).error
      ≠ some "video file is required" :=
  ⟨rfl, by decide⟩

/-- C7 fails on the code: the handler never validates `stock_identifier`.
With a file present and no stock identifier it does not answer 400; it
uploads the bytes under the key "reels/undefined_r1.mp4" (the undefined
variable interpolated into the key) and submits the transcode job, ending
in 500 only because the store rejects the key-less put. -/
theorem missing_stock_identifier_not_rejected :
    (featureReel "https://cdn" none none (some fileA) envPutFail []).status = 500 ∧
    (featureReel "https://cdn" none none (some fileA) envPutFail []).status ≠ 400 ∧
    (featureReel "https://cdn" none none (some fileA) envPutFail []).s3PutCalls
      = [("reels/undefined_r1.mp4", "video/mp4")] ∧
    (featureReel "https://cdn" none none (some fileA) envPutFail []).jobSubmitCalls = 1 ∧
    (featureReel "https://cdn" none none (some fileA) envPutFail []).dbPutCalls = 1 :=
  ⟨rfl, by decide, rfl, rfl, rfl⟩

/-- C8: the feed is the stored reels sorted by timestamp descending —
the returned list is the summary projection of a sorted permutation of
the table, three reels with increasing timestamps come back in reverse
order, and an empty table yields the empty list. -/
theorem reels_latest_sorted_desc (base : String) (store : List DynamoItem) :
    reelsLatest base store = (sortByTsDesc store).map (summarize base) ∧
    (sortByTsDesc store).Perm store ∧
    List.Sorted tsDesc (sortByTsDesc store) ∧
    reelsLatest base [] = [] ∧
    (∀ r1 r2 r3 : DynamoItem,
      r1.timestamp < r2.timestamp → r2.timestamp < r3.timestamp →
      reelsLatest base [r1, r2, r3]
        = [summarize base r3, summarize base r2, summarize base r1]) := by
  refine ⟨rfl, List.perm_insertionSort tsDesc store,
    List.sorted_insertionSort tsDesc store, rfl, ?_⟩
  intro r1 r2 r3 h12 h23
  have n23 : ¬ tsDesc r2 r3 := Nat.not_le.mpr h23
  have n13 : ¬ tsDesc r1 r3 := Nat.not_le.mpr (Nat.lt_trans h12 h23)
  have n12 : ¬ tsDesc r1 r2 := Nat.not_le.mpr h12
  simp [reelsLatest, sortByTsDesc, List.insertionSort, List.orderedInsert,
    n23, n13, n12]

/-- Closed instance of C8: an empty table lists as empty, and three reels
with timestamps 1 < 2 < 3 list in the order 3, 2, 1. -/
theorem reels_latest_sorted_desc_witness :
    reelsLatest "https://cdn" [] = [] ∧
    reelsLatest "https://cdn" [tsItem "a" 1, tsItem "b" 2, tsItem "c" 3]
      = [summarize "https://cdn" (tsItem "c" 3), summarize "https://cdn" (tsItem "b" 2),
         summarize "https://cdn" (tsItem "a" 1)] :=
  ⟨(reels_latest_sorted_desc "https://cdn" []).2.2.2.1,
   (reels_latest_sorted_desc "https://cdn"
      [tsItem "a" 1, tsItem "b" 2, tsItem "c" 3]).2.2.2.2
     (tsItem "a" 1) (tsItem "b" 2) (tsItem "c" 3) (by decide) (by decide)⟩

/-- C9 fails on the code: the handler never reads a limit, so a request
with limit 1 against a two-reel table still returns both entries. -/
theorem limit_not_applied :
    (reelsLatestWithLimit "https://cdn" (some 1) [tsItem "a" 1, tsItem "b" 2]).length = 2 ∧
    ¬ ((reelsLatestWithLimit "https://cdn" (some 1)
        [tsItem "a" 1, tsItem "b" 2]).length ≤ 1) := by
  decide

/-- Amended C9: the `GET /reels-latest` handler ignores any limit query
parameter — whatever limit is supplied, the response is the full sorted
feed, with one entry per stored reel. -/
theorem limit_ignored (base : String) (lim : Option Nat) (store : List DynamoItem) :
    reelsLatestWithLimit base lim store = reelsLatest base store ∧
    (reelsLatestWithLimit base lim store).length = store.length := by
  refine ⟨rfl, ?_⟩
  simp only [reelsLatestWithLimit, reelsLatest, List.length_map]
  exact (List.perm_insertionSort tsDesc store).length_eq

/-- C3 fails on the code: the like handler is a non-atomic read-then-
write.  Under the interleaving read-alice, read-bob, write-alice,
write-bob of two like requests with distinct client ids against `reelR1`
(5 likes, liked by "z"), both requests complete, yet the final counter is
6, not 5 + 2, and "alice" is missing from the final likedBy list. -/
theorem concurrent_likes_lose_update :
    (getItem lostUpdateFinal.store "ACME" "r1").map DynamoItem.likes
      = some (some 6) ∧
    (getItem lostUpdateFinal.store "ACME" "r1").map DynamoItem.likedBy
      = some (some ["z", "bob"]) ∧
    lostUpdateFinal.ops.map (fun p => p.2) = [.finished, .finished] ∧
    (6 : Nat) ≠ 5 + 2 ∧
    ∀ l, (getItem lostUpdateFinal.store "ACME" "r1").map DynamoItem.likedBy
        = some (some l) → "alice" ∉ l := by
  refine ⟨by decide, by decide, by decide, by decide, ?_⟩
  intro l hl
  have : l = ["z", "bob"] := by
    have h2 : (getItem lostUpdateFinal.store "ACME" "r1").map DynamoItem.likedBy
        = some (some ["z", "bob"]) := by decide
    rw [h2] at hl
    exact (Option.some_injective _ (Option.some_injective _ hl.symm))
  subst this
  decide

end Finreels
